import Mathlib

/-!
Verification of the starpc RPC runtime core.

The repository carries two implementations of the same wire protocol:
a Go one (packages `srpc` and `rpcstream`) and a TypeScript one (class
`CommonRPC`).  The definitions below are shallow embeddings of the
relevant functions, translated clause by clause from the source files:

* `Starpc.Srpc`      — Go `srpc` package: `ServerRPC` (server-rpc.go),
  `MsgStream` (msg-stream.go, Go half).
* `Starpc.TsRpc`     — TypeScript `CommonRPC` (msg-stream.go, TS half):
  `pushRpcData`, `handleCallData`.
* `Starpc.Rpcstream` — Go `rpcstream` package: `OpenRpcStream`,
  `HandleRpcStream`, `RpcStreamReadWriter.Write` / `Read`.

Bytes are modelled as `Nat`, byte slices as `List Nat`.  Go channels are
modelled as bounded queues (`List` plus an explicit capacity); goroutine
spawns and writes to the transport are recorded as explicit effects in
the result values.  A `Recv` from the stream is modelled by consuming
the head of an explicit list of incoming packets; an exhausted list
behaves as a receive error (EOF).
-/

namespace Starpc

namespace Srpc

/-- CallStart packet body (wire schema: rpcService, rpcMethod, data, dataIsZero). -/
structure CallStart where
  rpcService : String
  rpcMethod : String
  data : List Nat
  dataIsZero : Bool
deriving DecidableEq, Repr

/-- CallData packet body (wire schema: data, complete, error, dataIsZero). -/
structure CallData where
  data : List Nat
  complete : Bool
  error : String
  dataIsZero : Bool
deriving DecidableEq, Repr

/-- Errors the Go `ServerRPC` packet handlers can return, one constructor per
distinct error value produced in server-rpc.go.  `wouldBlock` stands for the
blocking send on the full data channel (the `select` in `HandleCallData` when
the channel is full and the context is live), which in Go suspends the
goroutine rather than returning. -/
inductive HandleErr where
  | callStartOnce
  | completed
  | chanFull
  | canceled
  | wouldBlock
  | unrecognizedPacket
deriving DecidableEq, Repr

/-- Capacity of the data channel: `make(chan []byte, 5)` in `NewServerRPC`. -/
def dataChCapacity : Nat := 5

/-- State of a Go `ServerRPC` (server-rpc.go).  `dataCh` is the queue backing
the buffered channel; `invoked` records whether `go r.invokeRPC()` has been
spawned; `ctxCancelled` models `r.ctx.Done()` being closed. -/
structure ServerRPCState where
  service : String
  method : String
  dataCh : List (List Nat)
  dataChClosed : Bool
  clientErr : Option String
  ctxCancelled : Bool
  invoked : Bool
deriving DecidableEq, Repr

/-- The state of a freshly constructed `ServerRPC` (`NewServerRPC`). -/
def NewServerRPC : ServerRPCState :=
  { service := ""
    method := ""
    dataCh := []
    dataChClosed := false
    clientErr := none
    ctxCancelled := false
    invoked := false }

/-- Go `ServerRPC.HandleCallStart` (server-rpc.go lines 73-97).  Returns the
updated state together with the error returned to the caller, `none` on
success.  On success the invocation goroutine is spawned (`invoked := true`). -/
def handleCallStart (r : ServerRPCState) (pkt : CallStart) : ServerRPCState × Option HandleErr :=
  if r.method ≠ "" ∨ r.service ≠ "" then (r, some .callStartOnce)
  else if r.dataChClosed then (r, some .completed)
  else
    let r1 := { r with method := pkt.rpcMethod, service := pkt.rpcService }
    if pkt.data ≠ [] then
      if r1.dataCh.length < dataChCapacity then
        ({ r1 with dataCh := r1.dataCh ++ [pkt.data], invoked := true }, none)
      else (r1, some .chanFull)
    else ({ r1 with invoked := true }, none)

/-- Go `ServerRPC.HandleCallData` (server-rpc.go lines 100-125).  Note the
source enqueues only when `len(pkt.GetData()) != 0` and never consults
`dataIsZero`; there is no check that a `CallStart` was handled first. -/
def handleCallData (r : ServerRPCState) (pkt : CallData) : ServerRPCState × Option HandleErr :=
  if r.dataChClosed then (r, some .completed)
  else if pkt.data ≠ [] ∧ r.ctxCancelled then (r, some .canceled)
  else if pkt.data ≠ [] ∧ dataChCapacity ≤ r.dataCh.length then (r, some .wouldBlock)
  else
    let r1 := if pkt.data ≠ [] then { r with dataCh := r.dataCh ++ [pkt.data] } else r
    let r2 := if pkt.error ≠ "" then { r1 with clientErr := some pkt.error } else r1
    if pkt.complete ∨ pkt.error ≠ "" then ({ r2 with dataChClosed := true }, none)
    else (r2, none)

/-- Handler/mux errors that can reach the terminal packet of `invokeRPC`. -/
inductive RpcError where
  | unimplemented
  | handler (msg : String)
deriving DecidableEq, Repr

/-- Modelled from the spec: the `ErrUnimplemented` sentinel (not under src/)
"travels as a terminal error string"; its exact text is the sentinel's
message. -/
def ErrUnimplementedMsg : String := "unimplemented"

/-- Rendering of an optional error as the wire `error` string, empty when
there is no error. -/
def errString : Option RpcError → String
  | none => ""
  | some .unimplemented => ErrUnimplementedMsg
  | some (.handler s) => s

/-- Modelled from the spec: `NewCallDataPacket` (not under src/) builds the
terminal CallData carrying the data, the complete flag, and the error rendered
as a string (empty when no error): "emit a terminal CallData with complete and
the handler error". -/
def NewCallDataPacket (data : List Nat) (complete : Bool) (err : Option RpcError) : CallData :=
  { data := data, complete := complete, error := errString err, dataIsZero := false }

/-- Observable effects of `ServerRPC.invokeRPC` after `mux.InvokeMethod`
returned: the packets passed to `writer.MsgSend`, whether the context was
cancelled and whether the writer was closed. -/
structure InvokeEffects where
  sent : List CallData
  ctxCancelled : Bool
  writerClosed : Bool
deriving DecidableEq, Repr

/-- Go `ServerRPC.invokeRPC` (server-rpc.go lines 134-146), as a function of
the mux result `(ok, err)` where `err` is the handler error message. -/
def invokeRPC (ok : Bool) (err : Option String) : InvokeEffects :=
  let e : Option RpcError :=
    match err, ok with
    | none, false => some .unimplemented
    | none, true => none
    | some s, _ => some (.handler s)
  { sent := [NewCallDataPacket [] true e], ctxCancelled := true, writerClosed := true }

/-- A Go `MsgStream` (msg-stream.go, Go half): whether its context is done and
whether a close callback was supplied. -/
structure MsgStream where
  ctxDone : Bool
  hasCloseCb : Bool
deriving DecidableEq, Repr

/-- Effects a `MsgStream` operation can perform: a `WriteCallData` on the
underlying read-writer, or an invocation of the close callback. -/
inductive StreamEvent where
  | writeCallData (data : List Nat) (complete : Bool) (err : Option String)
  | closeCb
deriving DecidableEq, Repr

/-- Go `MsgStream.MsgSend` (msg-stream.go lines 47-59) on an
already-marshalled message body: fails fast when the context is done,
otherwise performs `WriteCallData(msgData, false, nil)`. -/
def MsgStream.MsgSend (s : MsgStream) (msgData : List Nat) : List StreamEvent × Option String :=
  if s.ctxDone then ([], some "context canceled")
  else ([.writeCallData msgData false none], none)

/-- Go `MsgStream.CloseSend` (msg-stream.go lines 72-74):
`WriteCallData(nil, true, nil)`. -/
def MsgStream.CloseSendEvents : List StreamEvent :=
  [.writeCallData [] true none]

/-- Go `MsgStream.Close` (msg-stream.go lines 77-84): the events performed by
one call to `Close` — a best-effort `CloseSend` followed by the close callback
when one is set.  `Close` always returns nil. -/
def MsgStream.Close (s : MsgStream) : List StreamEvent :=
  MsgStream.CloseSendEvents ++ (if s.hasCloseCb then [StreamEvent.closeCb] else [])

/-- Number of close-callback invocations recorded in an event trace. -/
def cbCount (evs : List StreamEvent) : Nat :=
  evs.countP (fun e => decide (e = StreamEvent.closeCb))

/-- A `ServerRPC` state that has handled a valid `CallStart` with no data
queued yet: the fixture used in the closed evaluation theorems. -/
def startedState : ServerRPCState :=
  { NewServerRPC with service := "echo.Echoer", method := "Echo" }

end Srpc

namespace TsRpc

/-- A TypeScript `Partial<CallData>`.  `data` keeps the undefined/present
distinction (it matters in `pushRpcData`); `dataIsZero` and `complete`
collapse undefined to `false` and `error` collapses undefined to `""`, which
is exactly how the source consumes them (truthiness tests only). -/
structure TsCallData where
  data : Option (List Nat)
  dataIsZero : Bool
  complete : Bool
  error : String
deriving DecidableEq, Repr

/-- Observable state of a TypeScript `CommonRPC`: the recorded service and
method (undefined before `CallStart`), the payloads pushed to
`rpcDataSource`, and whether/how that source was ended. -/
structure CommonState where
  service : Option String
  method : Option String
  pushed : List (List Nat)
  ended : Option (Option String)
deriving DecidableEq, Repr

/-- A fresh `CommonRPC` (constructor): nothing recorded, nothing pushed. -/
def initCommonState : CommonState :=
  { service := none, method := none, pushed := [], ended := none }

/-- JS truthiness of an optional string: undefined and the empty string are
falsy. -/
def strFalsy : Option String → Bool
  | none => true
  | some s => s = ""

/-- TypeScript `CommonRPC.pushRpcData` (msg-stream.go TS half, lines 216-228):
when `dataIsZero` is set, pushes a zero-length payload (coercing anything that
is not a zero-length array); otherwise drops absent or empty data and pushes
the rest. -/
def pushRpcData (st : CommonState) (data : Option (List Nat)) (dataIsZero : Bool) : CommonState :=
  if dataIsZero then
    let d : List Nat :=
      match data with
      | some d => if d.length = 0 then d else []
      | none => []
    { st with pushed := st.pushed ++ [d] }
  else
    match data with
    | none => st
    | some [] => st
    | some d => { st with pushed := st.pushed ++ [d] }

/-- TypeScript `CommonRPC.handleCallData` (msg-stream.go TS half, lines
231-242): throws when no `CallStart` recorded a truthy service and method,
otherwise pushes the payload and ends the data source on error/complete. -/
def handleCallData (st : CommonState) (pkt : TsCallData) : Except String CommonState :=
  if strFalsy st.service || strFalsy st.method then
    .error "call start must be sent before call data"
  else
    let st1 := pushRpcData st pkt.data pkt.dataIsZero
    if pkt.error ≠ "" then .ok { st1 with ended := some (some pkt.error) }
    else if pkt.complete then .ok { st1 with ended := some none }
    else .ok st1

end TsRpc

namespace Rpcstream

/-- Body of an `RpcStreamPacket` (rpcstream wire schema): `init`, `ack`, or
raw `data`. -/
inductive RpcStreamBody where
  | init (componentId : String)
  | ack (error : String)
  | data (d : List Nat)
deriving DecidableEq, Repr

/-- An `RpcStreamPacket`; `none` models a packet with a nil body
(`GetBody() == nil`). -/
abbrev RpcStreamPacket := Option RpcStreamBody

/-- `pkt.GetAck().GetError()`: the ack error string, empty for any non-ack
packet (Go getters return zero values through nil). -/
def ackError : RpcStreamPacket → String
  | some (.ack e) => e
  | _ => ""

/-- `pkt.GetData()`: the data payload, empty for any non-data packet. -/
def getData : RpcStreamPacket → List Nat
  | some (.data d) => d
  | _ => []

/-- Errors `OpenRpcStream` can fail with after the Init was sent. -/
inductive OpenErr where
  | recvErr (e : String)
  | remoteErr (e : String)
  | expectedAck
deriving DecidableEq, Repr

/-- The message of an `OpenErr`; a remote ack error is prefixed with
"remote: " (`errors.Errorf` in the source). -/
def openErrMsg : OpenErr → String
  | .recvErr e => e
  | .remoteErr e => "remote: " ++ e
  | .expectedAck => "expected ack packet"

/-- Outcome of the wait-for-ack step of `OpenRpcStream`: whether a
ReadWriteCloser was returned, whether the stream was closed, the error, and
the packets left unconsumed on the stream. -/
structure OpenResult where
  returnedRw : Bool
  streamClosed : Bool
  err : Option OpenErr
  remaining : List RpcStreamPacket
deriving DecidableEq, Repr

/-- Go `OpenRpcStream` with `waitAck = true`, after the Init packet was sent
successfully (part_000 lines 51-72): receive exactly one packet from
`incoming` and accept only a success Ack.  An exhausted `incoming` list
behaves as a receive error. -/
def openRpcStreamAck (incoming : List RpcStreamPacket) : OpenResult :=
  match incoming with
  | [] => { returnedRw := false, streamClosed := true, err := some (.recvErr "EOF"), remaining := [] }
  | pkt :: rest =>
    match pkt with
    | some (.ack e) =>
      if e ≠ "" then
        { returnedRw := false, streamClosed := true, err := some (.remoteErr e), remaining := rest }
      else
        { returnedRw := true, streamClosed := false, err := none, remaining := rest }
    | _ =>
      { returnedRw := false, streamClosed := true, err := some .expectedAck, remaining := rest }

/-- Result of the getter supplied to `HandleRpcStream`: whether the mux was
non-nil, whether the release func was non-nil, and the error. -/
structure GetterResult where
  muxPresent : Bool
  releasePresent : Bool
  err : Option String
deriving DecidableEq, Repr

/-- How `HandleRpcStream` terminated. -/
inductive HandleOutcome where
  | recvFail (e : String)
  | expectedInit
  | emptyComponentId
  | failAfterAck (e : String)
  | sendFail (e : String)
  | runServer
deriving DecidableEq, Repr

/-- Observable effects of `HandleRpcStream`: the error string of the Ack whose
send was attempted (`none` when no Ack was sent), whether the getter's release
callback ran, and the outcome. -/
structure HandleEffects where
  ackSent : Option String
  releaseInvoked : Bool
  outcome : HandleOutcome
deriving DecidableEq, Repr

/-- The error used when the getter returns a nil mux and a nil error. -/
def noServerMsg : String := "no server for that component"

/-- Go `HandleRpcStream` (part_000 lines 106-154) as a function of the
incoming packets, the getter result, and the result of sending the Ack.  The
release callback is registered with `defer` right after the getter returns,
iff both the mux and the release func are non-nil, so it runs on every later
path. -/
def handleRpcStream (incoming : List RpcStreamPacket) (getter : GetterResult)
    (sendErr : Option String) : HandleEffects :=
  match incoming with
  | [] => { ackSent := none, releaseInvoked := false, outcome := .recvFail "EOF" }
  | pkt :: _rest =>
    match pkt with
    | some (.init cid) =>
      if cid = "" then
        { ackSent := none, releaseInvoked := false, outcome := .emptyComponentId }
      else
        let err : Option String :=
          match getter.err, getter.muxPresent with
          | none, false => some noServerMsg
          | e, _ => e
        let rel := getter.muxPresent && getter.releasePresent
        let ackStr := err.getD ""
        match err with
        | some e => { ackSent := some ackStr, releaseInvoked := rel, outcome := .failAfterAck e }
        | none =>
          match sendErr with
          | some se => { ackSent := some ackStr, releaseInvoked := rel, outcome := .sendFail se }
          | none => { ackSent := some ackStr, releaseInvoked := rel, outcome := .runServer }
    | _ => { ackSent := none, releaseInvoked := false, outcome := .expectedInit }

/-- Go `RpcStreamReadWriter.Write` (part_000 lines 170-183): the frames whose
send was attempted, the byte count returned and the error.  An empty slice
returns immediately without sending. -/
def rpcWrite (p : List Nat) (sendErr : Option String) :
    List RpcStreamBody × Nat × Option String :=
  if p = [] then ([], 0, none)
  else
    match sendErr with
    | some e => ([.data p], 0, some e)
    | none => ([.data p], p.length, none)

/-- Receive loop of `RpcStreamReadWriter.Read` when the internal buffer is
empty and no byte has been delivered yet (part_000 lines 195-224): receive
packets until an error ack, a non-empty data frame, or a receive error;
returns (bytes delivered, new buffer, packets left, error). -/
def rpcReadLoop (cap : Nat) :
    List RpcStreamPacket → List Nat × List Nat × List RpcStreamPacket × Option String
  | [] => ([], [], [], some "EOF")
  | pkt :: rest =>
    if ackError pkt ≠ "" then ([], [], rest, some (ackError pkt))
    else
      let d := getData pkt
      if d = [] then rpcReadLoop cap rest
      else (d.take cap, d.drop cap, rest, none)

/-- Go `RpcStreamReadWriter.Read` (part_000 lines 186-232) on a destination
buffer of length `cap`, with internal buffer `buf` and incoming packets
`pkts`: returns (bytes delivered to p, new internal buffer, packets left,
error).  Buffered bytes are served first and the call returns as soon as at
least one byte was delivered. -/
def rpcRead (cap : Nat) (buf : List Nat) (pkts : List RpcStreamPacket) :
    List Nat × List Nat × List RpcStreamPacket × Option String :=
  if cap = 0 then ([], buf, pkts, none)
  else if buf ≠ [] then (buf.take cap, buf.drop cap, pkts, none)
  else rpcReadLoop cap pkts

end Rpcstream

end Starpc

/-! Theorems settling the claims. -/

/-- Claim C1, code evaluated at the failing input: on a started Go `ServerRPC`,
a `CallData` with a zero-length payload and `dataIsZero` set is handled
without error but enqueues nothing — the zero-length message is elided and the
handler's `MsgRecv` can never yield it — whereas the TypeScript receive path
(`pushRpcData`) pushes a zero-length payload for the same packet, as the claim
requires. -/
theorem go_handleCallData_elides_dataIsZero :
    Starpc.Srpc.handleCallData Starpc.Srpc.startedState
        { data := [], complete := false, error := "", dataIsZero := true }
      = (Starpc.Srpc.startedState, none)
    ∧ Starpc.Srpc.startedState.dataCh = []
    ∧ (Starpc.TsRpc.pushRpcData Starpc.TsRpc.initCommonState (some []) true).pushed = [[]] := by
  decide

/-- Claim C2: once a `CallStart` has been handled, recording a non-empty
service or method, a second `HandleCallStart` returns the "call start must be
sent only once" error and leaves the state unchanged — in particular no second
invocation goroutine is spawned. -/
theorem handleCallStart_second_rejected (r : Starpc.Srpc.ServerRPCState)
    (pkt : Starpc.Srpc.CallStart) (h : r.service ≠ "" ∨ r.method ≠ "") :
    Starpc.Srpc.handleCallStart r pkt = (r, some .callStartOnce) := by
  unfold Starpc.Srpc.handleCallStart
  split
  · rfl
  · next h2 => exact absurd (Or.symm h) h2

/-- Witness for claim C2 at a concrete started state and packet. -/
theorem handleCallStart_second_rejected_witness :
    Starpc.Srpc.handleCallStart Starpc.Srpc.startedState
        { rpcService := "svc", rpcMethod := "m", data := [], dataIsZero := false }
      = (Starpc.Srpc.startedState, some .callStartOnce) :=
  handleCallStart_second_rejected _ _ (Or.inl (by decide))

/-- Counterexample to claim C3: the Go `ServerRPC.HandleCallData` does not
check that a `CallStart` was handled first; on a fresh `ServerRPC` it returns
no error and enqueues the payload instead of rejecting it. -/
theorem go_handleCallData_before_start_enqueues :
    Starpc.Srpc.handleCallData Starpc.Srpc.NewServerRPC
        { data := [1], complete := false, error := "", dataIsZero := false }
      = ({ Starpc.Srpc.NewServerRPC with dataCh := [[1]] }, none) := by
  decide

/-- Claim C3 as amended: in the TypeScript `CommonRPC`, handling `CallData`
before a `CallStart` recorded a truthy service and method fails with the error
"call start must be sent before call data" (and `handlePacket` closes the
stream on a thrown error); the Go `ServerRPC.HandleCallData` performs no such
check and enqueues the payload. -/
theorem ts_handleCallData_before_start_errors (st : Starpc.TsRpc.CommonState)
    (pkt : Starpc.TsRpc.TsCallData)
    (h : (Starpc.TsRpc.strFalsy st.service || Starpc.TsRpc.strFalsy st.method) = true) :
    Starpc.TsRpc.handleCallData st pkt = .error "call start must be sent before call data" := by
  simp [Starpc.TsRpc.handleCallData, h]

/-- Witness for the amended claim C3 at a fresh `CommonRPC`. -/
theorem ts_handleCallData_before_start_errors_witness :
    Starpc.TsRpc.handleCallData Starpc.TsRpc.initCommonState
        { data := some [1], dataIsZero := false, complete := false, error := "" }
      = .error "call start must be sent before call data" :=
  ts_handleCallData_before_start_errors _ _ (by decide)

/-- Claim C4: after the mux's `InvokeMethod` returns `(ok, err)`, `invokeRPC`
sends exactly one terminal `CallData` with `complete = true` and `error` equal
to the handler's error string — empty on success, and the `ErrUnimplemented`
sentinel when the method was unrecognized (`ok = false`, `err = nil`) — then
cancels the RPC context and closes the writer. -/
theorem invokeRPC_emits_one_terminal (ok : Bool) (err : Option String) :
    Starpc.Srpc.invokeRPC ok err =
      { sent := [{ data := [], complete := true,
                   error := match err, ok with
                            | some s, _ => s
                            | none, true => ""
                            | none, false => Starpc.Srpc.ErrUnimplementedMsg,
                   dataIsZero := false }],
        ctxCancelled := true, writerClosed := true } := by
  cases err <;> cases ok <;> rfl

/-- Counterexample to claim C5: `MsgStream.Close` has no once-guard, so two
calls to `Close` fire the close callback twice — not at most once. -/
theorem msgStream_close_twice_fires_cb_twice :
    Starpc.Srpc.cbCount
        (Starpc.Srpc.MsgStream.Close { ctxDone := false, hasCloseCb := true }
          ++ Starpc.Srpc.MsgStream.Close { ctxDone := false, hasCloseCb := true }) = 2
    ∧ ¬ Starpc.Srpc.cbCount
        (Starpc.Srpc.MsgStream.Close { ctxDone := false, hasCloseCb := true }
          ++ Starpc.Srpc.MsgStream.Close { ctxDone := false, hasCloseCb := true }) ≤ 1 := by
  decide

/-- Claim C5 as amended: every call to `MsgStream.Close` emits a best-effort
`CloseSend` and fires the close callback once per call when one is set (and
returns nil); `n` calls fire the callback `n` times — idempotence is not
enforced by `MsgStream` itself and must come from the callback. -/
theorem msgStream_close_fires_cb_once_per_call (s : Starpc.Srpc.MsgStream) (n : Nat) :
    Starpc.Srpc.cbCount (List.flatten (List.replicate n (Starpc.Srpc.MsgStream.Close s)))
      = if s.hasCloseCb then n else 0 := by
  induction n with
  | zero => cases s.hasCloseCb <;> simp [Starpc.Srpc.cbCount]
  | succ n ih =>
    have hc : Starpc.Srpc.cbCount (Starpc.Srpc.MsgStream.Close s)
        = if s.hasCloseCb then 1 else 0 := by
      cases hb : s.hasCloseCb <;>
        simp [Starpc.Srpc.MsgStream.Close, Starpc.Srpc.MsgStream.CloseSendEvents,
          Starpc.Srpc.cbCount, hb]
    calc Starpc.Srpc.cbCount (List.flatten (List.replicate (n + 1) (Starpc.Srpc.MsgStream.Close s)))
        = Starpc.Srpc.cbCount (Starpc.Srpc.MsgStream.Close s
            ++ List.flatten (List.replicate n (Starpc.Srpc.MsgStream.Close s))) := by
          rw [List.replicate_succ, List.flatten_cons]
      _ = Starpc.Srpc.cbCount (Starpc.Srpc.MsgStream.Close s)
            + Starpc.Srpc.cbCount (List.flatten (List.replicate n (Starpc.Srpc.MsgStream.Close s))) := by
          simp [Starpc.Srpc.cbCount, List.countP_append]
      _ = (if s.hasCloseCb then 1 else 0) + (if s.hasCloseCb then n else 0) := by rw [hc, ih]
      _ = if s.hasCloseCb then n + 1 else 0 := by cases s.hasCloseCb <;> simp <;> omega

/-- Claim C6: with `waitAck` set, after sending Init exactly one packet is
consumed; an Ack with a non-empty error `e` fails with the "remote: "-prefixed
message and the stream closed; an Ack with an empty error succeeds and returns
the ReadWriteCloser; any non-Ack packet fails with the "expected ack packet"
protocol error and the stream closed. -/
theorem openRpcStreamAck_spec (pkt : Starpc.Rpcstream.RpcStreamPacket)
    (rest : List Starpc.Rpcstream.RpcStreamPacket) :
    (Starpc.Rpcstream.openRpcStreamAck (pkt :: rest)).remaining = rest
    ∧ (∀ e, e ≠ "" → pkt = some (.ack e) →
        Starpc.Rpcstream.openRpcStreamAck (pkt :: rest) =
          { returnedRw := false, streamClosed := true,
            err := some (.remoteErr e), remaining := rest }
        ∧ Starpc.Rpcstream.openErrMsg (Starpc.Rpcstream.OpenErr.remoteErr e) = "remote: " ++ e)
    ∧ (pkt = some (.ack "") →
        Starpc.Rpcstream.openRpcStreamAck (pkt :: rest) =
          { returnedRw := true, streamClosed := false, err := none, remaining := rest })
    ∧ ((∀ e, pkt ≠ some (.ack e)) →
        Starpc.Rpcstream.openRpcStreamAck (pkt :: rest) =
          { returnedRw := false, streamClosed := true,
            err := some .expectedAck, remaining := rest }) := by
  refine ⟨?_, ?_, ?_, ?_⟩
  · rcases pkt with _ | b
    · rfl
    · rcases b with cid | e | d
      · rfl
      · by_cases he : e = "" <;> simp [Starpc.Rpcstream.openRpcStreamAck, he]
      · rfl
  · intro e he hpkt
    subst hpkt
    exact ⟨by simp [Starpc.Rpcstream.openRpcStreamAck, he], rfl⟩
  · intro hpkt
    subst hpkt
    simp [Starpc.Rpcstream.openRpcStreamAck]
  · intro h
    rcases pkt with _ | b
    · rfl
    · rcases b with cid | e | d
      · rfl
      · exact absurd rfl (h e)
      · rfl

/-- Witness for claim C6: a remote ack error "boom" fails the open with the
prefixed message and a closed stream. -/
theorem openRpcStreamAck_spec_witness :
    Starpc.Rpcstream.openRpcStreamAck [some (.ack "boom")] =
      { returnedRw := false, streamClosed := true,
        err := some (.remoteErr "boom"), remaining := [] }
    ∧ Starpc.Rpcstream.openErrMsg (Starpc.Rpcstream.OpenErr.remoteErr "boom")
      = "remote: " ++ "boom" :=
  (openRpcStreamAck_spec (some (.ack "boom")) []).2.1 "boom" (by decide) rfl

/-- Claim C7: `HandleRpcStream` rejects a first packet that is not Init with
"expected init packet" and an Init with an empty component id, in both cases
without sending an Ack or invoking a release; when the getter returns a nil
mux and a nil error it attempts to send an Ack whose error is "no server for
that component" and terminates without running the server; and the release
callback runs iff the getter returned a non-nil mux (and a non-nil release),
regardless of the getter's error or the Ack send result. -/
theorem handleRpcStream_spec (getter : Starpc.Rpcstream.GetterResult)
    (sendErr : Option String) :
    (∀ pkt rest, (∀ cid, pkt ≠ some (.init cid)) →
        Starpc.Rpcstream.handleRpcStream (pkt :: rest) getter sendErr =
          { ackSent := none, releaseInvoked := false, outcome := .expectedInit })
    ∧ (∀ rest,
        Starpc.Rpcstream.handleRpcStream (some (.init "") :: rest) getter sendErr =
          { ackSent := none, releaseInvoked := false, outcome := .emptyComponentId })
    ∧ (∀ cid rest, cid ≠ "" → getter.muxPresent = false → getter.err = none →
        Starpc.Rpcstream.handleRpcStream (some (.init cid) :: rest) getter sendErr =
          { ackSent := some Starpc.Rpcstream.noServerMsg, releaseInvoked := false,
            outcome := .failAfterAck Starpc.Rpcstream.noServerMsg })
    ∧ (∀ cid rest, cid ≠ "" →
        (Starpc.Rpcstream.handleRpcStream (some (.init cid) :: rest) getter sendErr).releaseInvoked
          = (getter.muxPresent && getter.releasePresent)) := by
  refine ⟨?_, ?_, ?_, ?_⟩
  · intro pkt rest h
    rcases pkt with _ | b
    · rfl
    · rcases b with cid | e | d
      · exact absurd rfl (h cid)
      · rfl
      · rfl
  · intro rest
    simp [Starpc.Rpcstream.handleRpcStream]
  · intro cid rest hcid hmux herr
    simp [Starpc.Rpcstream.handleRpcStream, hcid, hmux, herr]
  · intro cid rest hcid
    cases hge : getter.err <;> cases hmp : getter.muxPresent <;> cases sendErr <;>
      simp [Starpc.Rpcstream.handleRpcStream, hcid, hge, hmp]

/-- Witness for claim C7: component id "absent" with a getter that finds no
mux yields the "no server for that component" ack error. -/
theorem handleRpcStream_spec_witness :
    Starpc.Rpcstream.handleRpcStream [some (.init "absent")]
        { muxPresent := false, releasePresent := false, err := none } none =
      { ackSent := some Starpc.Rpcstream.noServerMsg, releaseInvoked := false,
        outcome := .failAfterAck Starpc.Rpcstream.noServerMsg } :=
  (handleRpcStream_spec { muxPresent := false, releasePresent := false, err := none }
    none).2.2.1 "absent" [] (by decide) rfl rfl

/-- Counterexample to claim C8: `Write` of an empty slice sends no frame at
all (it returns (0, nil) before calling Send), so it does not send exactly one
Data frame for every byte slice. -/
theorem rpcWrite_empty_sends_no_frame :
    Starpc.Rpcstream.rpcWrite [] none = ([], 0, none)
    ∧ ([] : List Starpc.Rpcstream.RpcStreamBody)
      ≠ [Starpc.Rpcstream.RpcStreamBody.data []] := by
  decide

/-- Claim C8 as amended: for every non-empty `p`, `Write(p)` attempts to send
exactly one Data frame whose payload is `p` (never split), returning
`len(p)` with no error when the send succeeds and `0` with the error when it
fails; `Write` of an empty slice sends nothing and returns (0, nil). -/
theorem rpcWrite_spec (p : List Nat) (sendErr : Option String) (h : p ≠ []) :
    Starpc.Rpcstream.rpcWrite p sendErr =
      ([Starpc.Rpcstream.RpcStreamBody.data p],
        match sendErr with
        | none => p.length
        | some _ => 0,
        sendErr)
    ∧ Starpc.Rpcstream.rpcWrite [] sendErr = ([], 0, none) := by
  cases sendErr <;> simp [Starpc.Rpcstream.rpcWrite, h]

/-- Witness for the amended claim C8 at a concrete two-byte slice. -/
theorem rpcWrite_spec_witness :
    Starpc.Rpcstream.rpcWrite [1, 2] none
      = ([Starpc.Rpcstream.RpcStreamBody.data [1, 2]], 2, none) :=
  (rpcWrite_spec [1, 2] none (by decide)).1

/-- Claim C9: for a non-empty destination buffer, `Read` first returns
previously buffered bytes without consuming a packet; with an empty buffer it
receives packets one at a time — an Ack with a non-empty error is surfaced as
the read error, empty Data frames are skipped — and a non-empty Data payload
is copied into the destination with the remainder beyond its length buffered,
returning at least one byte immediately (partial reads permitted). -/
theorem rpcRead_spec (cap : Nat) (buf : List Nat) (hcap : 0 < cap) :
    (buf ≠ [] → ∀ pkts, Starpc.Rpcstream.rpcRead cap buf pkts
        = (buf.take cap, buf.drop cap, pkts, none) ∧ 1 ≤ (buf.take cap).length)
    ∧ (∀ e rest, e ≠ "" →
        Starpc.Rpcstream.rpcRead cap [] (some (.ack e) :: rest) = ([], [], rest, some e))
    ∧ (∀ rest, Starpc.Rpcstream.rpcRead cap [] (some (.data []) :: rest)
        = Starpc.Rpcstream.rpcRead cap [] rest)
    ∧ (∀ d rest, d ≠ [] →
        Starpc.Rpcstream.rpcRead cap [] (some (.data d) :: rest)
          = (d.take cap, d.drop cap, rest, none) ∧ 1 ≤ (d.take cap).length) := by
  have h0 : cap ≠ 0 := Nat.pos_iff_ne_zero.mp hcap
  refine ⟨?_, ?_, ?_, ?_⟩
  · intro hbuf pkts
    have hlen : 0 < buf.length := List.length_pos.mpr hbuf
    constructor
    · simp [Starpc.Rpcstream.rpcRead, h0, hbuf]
    · simp only [List.length_take]
      omega
  · intro e rest he
    simp [Starpc.Rpcstream.rpcRead, Starpc.Rpcstream.rpcReadLoop,
      Starpc.Rpcstream.ackError, h0, he]
  · intro rest
    simp [Starpc.Rpcstream.rpcRead, Starpc.Rpcstream.rpcReadLoop,
      Starpc.Rpcstream.ackError, Starpc.Rpcstream.getData, h0]
  · intro d rest hd
    have hlen : 0 < d.length := List.length_pos.mpr hd
    constructor
    · simp [Starpc.Rpcstream.rpcRead, Starpc.Rpcstream.rpcReadLoop,
        Starpc.Rpcstream.ackError, Starpc.Rpcstream.getData, h0, hd]
    · simp only [List.length_take]
      omega

/-- Witness for claim C9: a one-byte destination served from a one-byte
internal buffer consumes no packet and delivers the byte. -/
theorem rpcRead_spec_witness :
    Starpc.Rpcstream.rpcRead 1 [7] [] = ([7], [], [], none) :=
  ((rpcRead_spec 1 [7] (by decide)).1 (by decide) []).1

/-- Claim C10: on a freshly constructed `ServerRPC`, handling a first
`CallStart` never takes the "data channel was full, expected empty" branch:
the data channel has capacity 5 and is still empty. -/
theorem handleCallStart_first_never_chanFull (pkt : Starpc.Srpc.CallStart) :
    (Starpc.Srpc.handleCallStart Starpc.Srpc.NewServerRPC pkt).2
      ≠ some Starpc.Srpc.HandleErr.chanFull := by
  by_cases hd : pkt.data = [] <;>
    simp [Starpc.Srpc.handleCallStart, Starpc.Srpc.NewServerRPC,
      Starpc.Srpc.dataChCapacity, hd]
